import Mathlib

/-!
# rpi-ws281x native binding: configuration store and lifecycle controller

A shallow embedding of `src/rpi-ws281x.cc`.  The module keeps one process-wide
`ws2811_t ws281x` and exports six functions to JavaScript: `setParam`,
`setChannelParam`, `setChannelData`, `init`, `render` and `finalize`.

Conventions of the embedding

* A call receives its JavaScript arguments as a list `info`; `info[i]` beyond the
  end of the list is `undefined`, as in V8.
* A function returns a `Completion` (what the caller observes: `undefined`, or
  the thrown exception) together with the new process state.
* C integers are `Int`/`Nat` with the wrap-around written out: `Int32Value`
  is ECMAScript `ToInt32`, an assignment to a `uint32_t` is `% 2 ^ 32`, a cast
  to `uint8_t` is `% 256`, a conversion to `size_t` is `% 2 ^ w` for the word
  size `w` of the platform.
* `info.GetReturnValue.SetUndefined()` (written without the call parentheses in
  five of the six functions) is read as `info.GetReturnValue().SetUndefined()`.
* The hardware driver is a parameter (`Driver`); every call into it is recorded
  in a log kept beside the configuration, so that "is invoked", "exactly once"
  and "after" are statements about that log.
-/

namespace RpiWs281x

/-! ## Constants of the source -/

def DEFAULT_TARGET_FREQ : Nat := 800000
def DEFAULT_GPIO_PIN : Int := 18
def DEFAULT_DMANUM : Int := 5

def PARAM_FREQ : Int := 1
def PARAM_DMANUM : Int := 2
def PARAM_GPIONUM : Int := 3
def PARAM_COUNT : Int := 4
def PARAM_INVERT : Int := 5
def PARAM_BRIGHTNESS : Int := 6
def PARAM_STRIP_TYPE : Int := 7

/-- Modelled from the spec: `sizeof(ws2811_led_t)`; the type is declared in
`rpi_ws281x/ws2811.h` (not among the sources), the spec gives one pixel as a
packed 32-bit value, four bytes. -/
def sizeof_ws2811_led_t : Nat := 4

/-! ## Machine integers -/

/-- ECMAScript `ToInt32` on an integral number: reduce modulo `2 ^ 32` into
`[-2 ^ 31, 2 ^ 31)`. -/
def toInt32 (n : Int) : Int := (n + 2 ^ 31) % 2 ^ 32 - 2 ^ 31

/-- Conversion of a C `int` to `uint32_t`. -/
def toUInt32 (n : Int) : Nat := (n % 2 ^ 32).toNat

/-- The cast `(uint8_t)value`. -/
def toUInt8 (n : Int) : Nat := (n % 256).toNat

/-- Conversion of an integer to `size_t` on a platform whose `size_t` has `w`
bits. -/
def toSizeT (w : Nat) (n : Int) : Nat := (n % 2 ^ w).toNat

/-- Membership in the range of a C `int` (32 bits, two's complement). -/
def IsInt32 (n : Int) : Prop := -2 ^ 31 ≤ n ∧ n < 2 ^ 31

/-! ## JavaScript values at the module boundary -/

/-- The JavaScript values the binding distinguishes.  Numbers are restricted to
integral values (of any magnitude); `numberObject` is the wrapper object that
`ToObject` makes of a number; `buffer` is a node `Buffer` with its bytes. -/
inductive JsValue where
  | undefined
  | number (n : Int)
  | numberObject (n : Int)
  | buffer (bytes : List Nat)
  deriving DecidableEq, Repr

namespace JsValue

/-- Embeds `v8::Value::IsNumber`. -/
def IsNumber : JsValue → Bool
  | number _ => true
  | _ => false

/-- Embeds `v8::Value::Int32Value`: `ToInt32` of the number; a value that
converts to `NaN` gives `0`. -/
def Int32Value : JsValue → Int
  | number n => toInt32 n
  | numberObject n => toInt32 n
  | _ => 0

/-- Embeds `v8::Value::ToObject`: a primitive number is wrapped, an object is
itself. -/
def ToObject : JsValue → JsValue
  | number n => numberObject n
  | v => v

/-- Embeds `node::Buffer::HasInstance`. -/
def HasInstance : JsValue → Bool
  | buffer _ => true
  | _ => false

end JsValue

/-- Embeds `node::Buffer::Data` together with `node::Buffer::Length`: the bytes
of a `Buffer`.  On an object that is not a `Buffer` node promises nothing; the
bytes such a call yields are the parameter `foreign`. -/
def Buffer_Data (foreign : JsValue → List Nat) : JsValue → List Nat
  | JsValue.buffer bytes => bytes
  | v => foreign v

/-- Embeds `node::Buffer::Length`. -/
def Buffer_Length (foreign : JsValue → List Nat) (v : JsValue) : Nat :=
  (Buffer_Data foreign v).length

/-- The argument `info[i]`; `undefined` beyond the arguments passed. -/
def arg (info : List JsValue) (i : Nat) : JsValue := info.getD i JsValue.undefined

/-! ## The configuration structure -/

/-- Modelled from the spec: `ws2811_channel_t` is declared in
`rpi_ws281x/ws2811.h`, which is not among the sources.  The fields are the ones
the source names (the initialiser of `ws281x`, `setChannelParam`,
`setChannelData`): pin, pixel count, inversion flag, brightness byte, strip type,
and `leds`, the driver-owned pixel buffer (`none` is the null pointer, otherwise
the bytes of the allocation). -/
structure ws2811_channel_t where
  gpionum : Int
  count : Int
  invert : Int
  brightness : Nat
  strip_type : Int
  leds : Option (List Nat)
  deriving DecidableEq, Repr

/-- Modelled from the spec: `ws2811_t` is declared in `rpi_ws281x/ws2811.h`,
which is not among the sources.  `freq` is unsigned, `dmanum` an integer, there
are two channel slots, and `device` stands for whatever else of the structure
belongs to the driver alone. -/
structure ws2811_t where
  freq : Nat
  dmanum : Int
  channel0 : ws2811_channel_t
  channel1 : ws2811_channel_t
  device : Nat
  deriving DecidableEq, Repr

/-- The array access `ws281x.channel[i]` for an index already checked to be `0`
or `1`. -/
def ws2811_t.channel (c : ws2811_t) (i : Int) : ws2811_channel_t :=
  if i = 0 then c.channel0 else c.channel1

/-- A store through the pointer `ws281x.channel[i].leds`: the bytes of that
allocation become `bytes`; nothing else of the structure changes. -/
def ws2811_t.storeLeds (c : ws2811_t) (i : Int) (bytes : List Nat) : ws2811_t :=
  if i = 0 then { c with channel0 := { c.channel0 with leds := some bytes } }
  else { c with channel1 := { c.channel1 with leds := some bytes } }

/-- The initialiser of the global `ws281x` (source lines 29-51); members the
designated initialiser does not name are zero. -/
def ws281x_initial : ws2811_t :=
  { freq := DEFAULT_TARGET_FREQ
    dmanum := DEFAULT_DMANUM
    channel0 :=
      { gpionum := DEFAULT_GPIO_PIN, count := 0, invert := 0, brightness := 255,
        strip_type := 0, leds := none }
    channel1 :=
      { gpionum := 0, count := 0, invert := 0, brightness := 0,
        strip_type := 0, leds := none }
    device := 0 }

/-! ## The driver and the process state -/

/-- Modelled from the spec: the hardware driver (`ws2811_init`, `ws2811_wait`,
`ws2811_render`, `ws2811_fini`, `ws2811_get_return_t_str` of
`rpi_ws281x/ws2811.h`) is not among the sources.  Each operation receives a
pointer to the structure, so it returns the structure it leaves behind; the
first three also return a status, an integer, of which `WS2811_SUCCESS` is the
one that means success. -/
structure Driver where
  WS2811_SUCCESS : Int
  ws2811_init : ws2811_t → Int × ws2811_t
  ws2811_wait : ws2811_t → Int × ws2811_t
  ws2811_render : ws2811_t → Int × ws2811_t
  ws2811_fini : ws2811_t → ws2811_t
  ws2811_get_return_t_str : Int → String

/-- One call into the driver, with the structure it was handed. -/
inductive DriverCall where
  | init (cfg : ws2811_t)
  | wait (cfg : ws2811_t)
  | render (cfg : ws2811_t)
  | fini (cfg : ws2811_t)
  deriving DecidableEq, Repr

/-- The process state: the global `ws281x` and the log of driver calls made so
far (oldest first). -/
structure Module where
  ws281x : ws2811_t
  calls : List DriverCall
  deriving DecidableEq, Repr

/-- The state at module load. -/
def Module.initial : Module := { ws281x := ws281x_initial, calls := [] }

/-- What the JavaScript caller observes of a call. -/
inductive Completion where
  /-- `info.GetReturnValue().SetUndefined()`. -/
  | undefined
  /-- `Nan::ThrowTypeError(msg)`. -/
  | typeError (msg : String)
  /-- `Nan::ThrowError(msg)`. -/
  | error (msg : String)
  /-- A `memcpy` that leaves the destination allocation: undefined in C. -/
  | outOfBounds
  deriving DecidableEq, Repr

/-! ## Configuration store -/

/-- Embeds `setParam` (source lines 57-95). -/
def setParam (st : Module) (info : List JsValue) : Completion × Module :=
  if info.length ≠ 2 then
    (Completion.typeError "setParam(): expected two params", st)
  else if !(arg info 0).IsNumber then
    (Completion.typeError "setParam(): expected argument 1 to be the parameter-id", st)
  else if !(arg info 1).IsNumber then
    (Completion.typeError "setParam(): expected argument 2 to be the value", st)
  else
    let param := (arg info 0).Int32Value
    let value := (arg info 1).Int32Value
    if param = PARAM_FREQ then
      (Completion.undefined, { st with ws281x := { st.ws281x with freq := toUInt32 value } })
    else if param = PARAM_DMANUM then
      (Completion.undefined, { st with ws281x := { st.ws281x with dmanum := value } })
    else
      (Completion.typeError "setParam(): invalid parameter-id", st)

/-- The `switch` of `setChannelParam` (source lines 139-160) acting on the local
variable `channel`: the updated local, or `none` for the `default` branch. -/
def setChannelParam_switch (channel : ws2811_channel_t) (param value : Int) :
    Option ws2811_channel_t :=
  if param = PARAM_GPIONUM then some { channel with gpionum := value }
  else if param = PARAM_COUNT then some { channel with count := value }
  else if param = PARAM_INVERT then some { channel with invert := value }
  else if param = PARAM_BRIGHTNESS then some { channel with brightness := toUInt8 value }
  else if param = PARAM_STRIP_TYPE then some { channel with strip_type := value }
  else none

/-- Embeds `setChannelParam` (source lines 101-163).  `channel` is declared
`ws2811_channel_t channel = ws281x.channel[channelNumber];`, a copy by value:
the `switch` assigns to the copy, and the copy goes out of scope on return. -/
def setChannelParam (st : Module) (info : List JsValue) : Completion × Module :=
  if info.length ≠ 3 then
    (Completion.typeError "setChannelParam(): missing argument", st)
  else if !(arg info 0).IsNumber then
    (Completion.typeError "setChannelParam(): expected argument 1 to be the channel-number", st)
  else
    let channelNumber := (arg info 0).Int32Value
    if channelNumber > 1 ∨ channelNumber < 0 then
      (Completion.error "setChannelParam(): invalid chanel-number", st)
    else if !(arg info 1).IsNumber then
      (Completion.typeError "setChannelParam(): expected argument 2 to be the parameter-id", st)
    else if !(arg info 2).IsNumber then
      (Completion.typeError "setChannelParam(): expected argument 3 to be the value", st)
    else
      let channel := st.ws281x.channel channelNumber
      let param := (arg info 1).Int32Value
      let value := (arg info 2).Int32Value
      match setChannelParam_switch channel param value with
      | none => (Completion.typeError "setChannelParam(): invalid parameter-id", st)
      | some _ => (Completion.undefined, st)

/-- Embeds `memcpy(dst, src, n)` on two allocations given by their bytes: the
first `n` bytes of `src` replace the first `n` bytes of `dst`; `none` when `n`
bytes do not fit in one of the two. -/
def memcpy (dst src : List Nat) (n : Nat) : Option (List Nat) :=
  if n ≤ src.length ∧ n ≤ dst.length then some (src.take n ++ dst.drop n) else none

/-- Embeds `setChannelData` (source lines 170-215).  The local `channel` is a
copy by value, but `channel.leds` is the same pointer as
`ws281x.channel[channelNumber].leds`, so the `memcpy` stores into that
allocation.  `buffer` is taken from `info[0]` (source line 199). -/
def setChannelData (w : Nat) (foreign : JsValue → List Nat) (st : Module)
    (info : List JsValue) : Completion × Module :=
  if info.length ≠ 2 then
    (Completion.typeError "setChannelData(): missing argument.", st)
  else if !(arg info 0).IsNumber then
    (Completion.typeError "setChannelData(): expected argument 1 to be the channel-number.", st)
  else
    let channelNumber := (arg info 0).Int32Value
    if channelNumber > 1 ∨ channelNumber < 0 then
      (Completion.error "setChannelData(): invalid chanel-number", st)
    else
      let channel := st.ws281x.channel channelNumber
      if !(arg info 1).HasInstance then
        (Completion.typeError "setChannelData(): expected argument 2 to be a Buffer", st)
      else
        let buffer := (arg info 0).ToObject
        let data := Buffer_Data foreign buffer
        if channel.count = 0 ∨ channel.leds = none then
          (Completion.error "setChannelData(): channel not ready", st)
        else
          let numBytes : Int :=
            toInt32 (Int.ofNat (min (Buffer_Length foreign buffer)
              (sizeof_ws2811_led_t * toSizeT w st.ws281x.channel0.count % 2 ^ w)))
          match memcpy (channel.leds.getD []) data (toSizeT w numBytes) with
          | none => (Completion.outOfBounds, st)
          | some bytes =>
            (Completion.undefined,
              { st with ws281x := st.ws281x.storeLeds channelNumber bytes })

/-! ## Lifecycle controller -/

/-- Embeds `init` (source lines 222-234). -/
def init (drv : Driver) (st : Module) (_info : List JsValue) : Completion × Module :=
  let r := drv.ws2811_init st.ws281x
  let st1 : Module := { ws281x := r.2, calls := st.calls ++ [DriverCall.init st.ws281x] }
  if r.1 ≠ drv.WS2811_SUCCESS then
    (Completion.error (drv.ws2811_get_return_t_str r.1), st1)
  else
    (Completion.undefined, st1)

/-- Embeds `render` (source lines 241-260). -/
def render (drv : Driver) (st : Module) (_info : List JsValue) : Completion × Module :=
  let r := drv.ws2811_wait st.ws281x
  let st1 : Module := { ws281x := r.2, calls := st.calls ++ [DriverCall.wait st.ws281x] }
  if r.1 ≠ drv.WS2811_SUCCESS then
    (Completion.error (drv.ws2811_get_return_t_str r.1), st1)
  else
    let r2 := drv.ws2811_render st1.ws281x
    let st2 : Module :=
      { ws281x := r2.2, calls := st1.calls ++ [DriverCall.render st1.ws281x] }
    if r2.1 ≠ drv.WS2811_SUCCESS then
      (Completion.error (drv.ws2811_get_return_t_str r2.1), st2)
    else
      (Completion.undefined, st2)

/-- One call of a configuration-store function, with its arguments. -/
inductive ConfigCall where
  | setParam (info : List JsValue)
  | setChannelParam (info : List JsValue)
  | setChannelData (info : List JsValue)
  deriving DecidableEq, Repr

/-- The state a configuration-store call leaves behind. -/
def ConfigCall.run (w : Nat) (foreign : JsValue → List Nat) (st : Module) :
    ConfigCall → Module
  | ConfigCall.setParam info => (RpiWs281x.setParam st info).2
  | ConfigCall.setChannelParam info => (RpiWs281x.setChannelParam st info).2
  | ConfigCall.setChannelData info => (RpiWs281x.setChannelData w foreign st info).2

/-- The state after a sequence of configuration-store calls, made in order. -/
def runCalls (w : Nat) (foreign : JsValue → List Nat) (st : Module)
    (calls : List ConfigCall) : Module :=
  calls.foldl (ConfigCall.run w foreign) st

/-- Whether a call is `setParam` with two numbers whose first converts to the
parameter id `p`: the calls that reach the `case` for `p`. -/
def ConfigCall.isSetParamOf (p : Int) : ConfigCall → Bool
  | ConfigCall.setParam info =>
    info.length == 2 && (arg info 0).IsNumber && (arg info 1).IsNumber
      && ((arg info 0).Int32Value == p)
  | _ => false

/-! ## Concrete drivers and states used in the evaluations -/

/-- A driver that answers `initStatus`, `waitStatus`, `renderStatus`, leaves the
structure alone, and names a status by a fixed text. -/
def constDriver (initStatus waitStatus renderStatus : Int) : Driver :=
  { WS2811_SUCCESS := 0
    ws2811_init := fun c => (initStatus, c)
    ws2811_wait := fun c => (waitStatus, c)
    ws2811_render := fun c => (renderStatus, c)
    ws2811_fini := fun c => c
    ws2811_get_return_t_str := fun s => if s = 0 then "Success" else "Generic failure" }

/-- A state in which channel 0 is ready: one pixel, a four-byte buffer of
zeros. -/
def readyExample : Module :=
  { ws281x :=
      { ws281x_initial with
        channel0 := { ws281x_initial.channel0 with count := 1, leds := some [0, 0, 0, 0] } }
    calls := [] }

/-! ## Shared lemmas -/

theorem toInt32_of_isInt32 {n : Int} (h : IsInt32 n) : toInt32 n = n := by
  unfold IsInt32 at h
  unfold toInt32
  omega

theorem toUInt32_toInt32 (n : Int) : toUInt32 (toInt32 n) = (n % 2 ^ 32).toNat := by
  unfold toUInt32 toInt32
  congr 1
  omega

theorem toUInt8_toInt32 (n : Int) : toUInt8 (toInt32 n) = (n % 256).toNat := by
  unfold toUInt8 toInt32
  congr 1
  omega

/-- The state after `setChannelParam` is the state before it, on every path. -/
theorem setChannelParam_snd (st : Module) (info : List JsValue) :
    (setChannelParam st info).2 = st := by
  simp only [setChannelParam]
  split_ifs <;> try rfl
  split <;> rfl

/-- A call of `setChannelData` leaves the state alone or stores bytes through
the `leds` pointer of the channel named by its first argument. -/
theorem setChannelData_snd (w : Nat) (foreign : JsValue → List Nat) (st : Module)
    (info : List JsValue) :
    (setChannelData w foreign st info).2 = st
      ∨ ∃ bytes, (setChannelData w foreign st info).2
          = { st with ws281x := st.ws281x.storeLeds (arg info 0).Int32Value bytes } := by
  unfold setChannelData
  dsimp only
  repeat' split
  all_goals first
    | exact Or.inl rfl
    | exact Or.inr ⟨_, rfl⟩

theorem storeLeds_scalars (c : ws2811_t) (i : Int) (bytes : List Nat) :
    (c.storeLeds i bytes).freq = c.freq ∧ (c.storeLeds i bytes).dmanum = c.dmanum
      ∧ (c.storeLeds i bytes).channel0.count = c.channel0.count
      ∧ (c.storeLeds i bytes).channel1.count = c.channel1.count := by
  unfold ws2811_t.storeLeds
  split <;> simp

/-- A call of `setChannelData` changes at most the bytes of a pixel buffer. -/
theorem setChannelData_snd_scalars (w : Nat) (foreign : JsValue → List Nat) (st : Module)
    (info : List JsValue) :
    (setChannelData w foreign st info).2.ws281x.freq = st.ws281x.freq
      ∧ (setChannelData w foreign st info).2.ws281x.dmanum = st.ws281x.dmanum
      ∧ (setChannelData w foreign st info).2.ws281x.channel0.count = st.ws281x.channel0.count
      ∧ (setChannelData w foreign st info).2.ws281x.channel1.count = st.ws281x.channel1.count := by
  rcases setChannelData_snd w foreign st info with h | ⟨bytes, h⟩
  · rw [h]; exact ⟨rfl, rfl, rfl, rfl⟩
  · rw [h]; exact storeLeds_scalars _ _ _

/-- A call other than a `setParam` reaching `case PARAM_FREQ` keeps `freq`. -/
theorem run_freq (w : Nat) (foreign : JsValue → List Nat) (st : Module) (c : ConfigCall)
    (h : c.isSetParamOf PARAM_FREQ = false) :
    (ConfigCall.run w foreign st c).ws281x.freq = st.ws281x.freq := by
  cases c with
  | setParam info =>
    simp only [ConfigCall.isSetParamOf] at h
    simp only [ConfigCall.run, setParam]
    split_ifs <;> simp_all
  | setChannelParam info => simp only [ConfigCall.run, setChannelParam_snd]
  | setChannelData info => exact (setChannelData_snd_scalars w foreign st info).1

/-- A call other than a `setParam` reaching `case PARAM_DMANUM` keeps `dmanum`. -/
theorem run_dmanum (w : Nat) (foreign : JsValue → List Nat) (st : Module) (c : ConfigCall)
    (h : c.isSetParamOf PARAM_DMANUM = false) :
    (ConfigCall.run w foreign st c).ws281x.dmanum = st.ws281x.dmanum := by
  cases c with
  | setParam info =>
    simp only [ConfigCall.isSetParamOf] at h
    simp only [ConfigCall.run, setParam]
    split_ifs <;> simp_all
  | setChannelParam info => simp only [ConfigCall.run, setChannelParam_snd]
  | setChannelData info => exact (setChannelData_snd_scalars w foreign st info).2.1

theorem runCalls_freq (w : Nat) (foreign : JsValue → List Nat) (calls : List ConfigCall) :
    ∀ st : Module, (∀ c ∈ calls, ConfigCall.isSetParamOf PARAM_FREQ c = false) →
      (runCalls w foreign st calls).ws281x.freq = st.ws281x.freq := by
  induction calls with
  | nil => intro st _; rfl
  | cons c cs ih =>
    intro st h
    have h1 := ih (ConfigCall.run w foreign st c) (fun x hx => h x (List.mem_cons_of_mem _ hx))
    simp only [runCalls, List.foldl_cons] at h1 ⊢
    exact h1.trans (run_freq w foreign st c (h c (List.mem_cons_self _ _)))

theorem runCalls_dmanum (w : Nat) (foreign : JsValue → List Nat) (calls : List ConfigCall) :
    ∀ st : Module, (∀ c ∈ calls, ConfigCall.isSetParamOf PARAM_DMANUM c = false) →
      (runCalls w foreign st calls).ws281x.dmanum = st.ws281x.dmanum := by
  induction calls with
  | nil => intro st _; rfl
  | cons c cs ih =>
    intro st h
    have h1 := ih (ConfigCall.run w foreign st c) (fun x hx => h x (List.mem_cons_of_mem _ hx))
    simp only [runCalls, List.foldl_cons] at h1 ⊢
    exact h1.trans (run_dmanum w foreign st c (h c (List.mem_cons_self _ _)))

/-! ## Configuration store: claims

The spec's error names stand for these exceptions of the source:
`InvalidParameter` is the `TypeError` "...: invalid parameter-id",
`InvalidChannel` the `Error` "...: invalid chanel-number", `ChannelNotReady` the
`Error` "setChannelData(): channel not ready", and `DriverError(message)` the
`Error` whose message is `ws2811_get_return_t_str` of the driver's status. -/

/-- C1, evaluated where it fails: from the state at module load,
`setChannelParam(0, BRIGHTNESS, 100)` completes normally, and afterwards the
brightness of channel 0 in the global `ws281x` is still `255`, not
`100 mod 256 = 100`; the whole state is the one before the call. -/
theorem setChannelParam_brightness_not_stored :
    setChannelParam Module.initial
        [JsValue.number 0, JsValue.number PARAM_BRIGHTNESS, JsValue.number 100]
      = (Completion.undefined, Module.initial)
    ∧ (Module.initial.ws281x.channel 0).brightness = 255
    ∧ toUInt8 100 = 100 := by
  decide

/-- C4 as stated fails: `4294967297` is an integer outside `{1, 2}`, yet
`setParam(4294967297, 7)` completes normally and overwrites `freq`, because
`Int32Value` turns the id into `1`. -/
theorem setParam_wrapped_id_accepted :
    (4294967297 : Int) ≠ PARAM_FREQ ∧ (4294967297 : Int) ≠ PARAM_DMANUM
    ∧ (setParam Module.initial [JsValue.number 4294967297, JsValue.number 7]).1
        = Completion.undefined
    ∧ (setParam Module.initial [JsValue.number 4294967297, JsValue.number 7]).2.ws281x.freq = 7
    ∧ Module.initial.ws281x.freq = 800000 := by
  decide

/-- C4, amended: for every state, every integer `paramId` whose conversion to a
C `int` (`Int32Value`) is neither `FREQ` nor `DMANUM`, and every integer
`value`, `setParam` throws "invalid parameter-id" and leaves the whole state
unchanged.  Every `paramId` in the 32-bit range other than `1` and `2` is such
an id (`toInt32_of_isInt32`). -/
theorem setParam_invalid_id (st : Module) (paramId value : Int)
    (h1 : toInt32 paramId ≠ PARAM_FREQ) (h2 : toInt32 paramId ≠ PARAM_DMANUM) :
    setParam st [JsValue.number paramId, JsValue.number value]
      = (Completion.typeError "setParam(): invalid parameter-id", st) := by
  simp [setParam, arg, JsValue.IsNumber, JsValue.Int32Value, h1, h2]

/-- Instance of `setParam_invalid_id` at the parameter id `3`. -/
theorem setParam_invalid_id_witness :
    setParam Module.initial [JsValue.number 3, JsValue.number (-12)]
      = (Completion.typeError "setParam(): invalid parameter-id", Module.initial) :=
  setParam_invalid_id Module.initial 3 (-12) (by decide) (by decide)

/-- C9: for every state and every `v` in the range of a 32-bit signed integer,
`setParam(FREQ, v)` completes normally and changes only `freq`, to `v mod 2^32`;
`setParam(DMANUM, v)` completes normally and changes only `dmanum`, to `v`.  At
module load `freq = 800000` and `dmanum = 5`, and each keeps that value through
every sequence of configuration-store calls none of which is a `setParam`
reaching its `case`. -/
theorem setParam_writes_one_field (st : Module) (v : Int) (hv : IsInt32 v) :
    setParam st [JsValue.number PARAM_FREQ, JsValue.number v]
      = (Completion.undefined,
          { st with ws281x := { st.ws281x with freq := (v % 2 ^ 32).toNat } })
    ∧ setParam st [JsValue.number PARAM_DMANUM, JsValue.number v]
      = (Completion.undefined, { st with ws281x := { st.ws281x with dmanum := v } })
    ∧ Module.initial.ws281x.freq = 800000
    ∧ Module.initial.ws281x.dmanum = 5
    ∧ (∀ (w : Nat) (foreign : JsValue → List Nat) (calls : List ConfigCall),
        (∀ c ∈ calls, ConfigCall.isSetParamOf PARAM_FREQ c = false) →
          (runCalls w foreign Module.initial calls).ws281x.freq = 800000)
    ∧ (∀ (w : Nat) (foreign : JsValue → List Nat) (calls : List ConfigCall),
        (∀ c ∈ calls, ConfigCall.isSetParamOf PARAM_DMANUM c = false) →
          (runCalls w foreign Module.initial calls).ws281x.dmanum = 5) := by
  have e1 : toInt32 PARAM_FREQ = PARAM_FREQ := by decide
  have e2 : toInt32 PARAM_DMANUM = PARAM_DMANUM := by decide
  have e3 : PARAM_DMANUM ≠ PARAM_FREQ := by decide
  refine ⟨?_, ?_, rfl, rfl, ?_, ?_⟩
  · simp [setParam, arg, JsValue.IsNumber, JsValue.Int32Value, e1, toUInt32_toInt32]
  · simp [setParam, arg, JsValue.IsNumber, JsValue.Int32Value, e2, e3, toInt32_of_isInt32 hv]
  · intro w foreign calls h
    exact (runCalls_freq w foreign calls Module.initial h).trans rfl
  · intro w foreign calls h
    exact (runCalls_dmanum w foreign calls Module.initial h).trans rfl

/-- Instance of `setParam_writes_one_field` at `v = -1`, and at two call
sequences. -/
theorem setParam_writes_one_field_witness :
    setParam readyExample [JsValue.number PARAM_FREQ, JsValue.number (-1)]
      = (Completion.undefined,
          { readyExample with ws281x := { readyExample.ws281x with freq := 4294967295 } })
    ∧ setParam readyExample [JsValue.number PARAM_DMANUM, JsValue.number (-1)]
      = (Completion.undefined,
          { readyExample with ws281x := { readyExample.ws281x with dmanum := -1 } })
    ∧ (runCalls 32 (fun _ => []) Module.initial
        [ConfigCall.setParam [JsValue.number 2, JsValue.number 10],
         ConfigCall.setParam [JsValue.number 7, JsValue.number 1],
         ConfigCall.setChannelParam [JsValue.number 0, JsValue.number 4, JsValue.number 10]]
        ).ws281x.freq = 800000
    ∧ (runCalls 32 (fun _ => []) Module.initial
        [ConfigCall.setParam [JsValue.number 1, JsValue.number 400000],
         ConfigCall.setChannelData [JsValue.number 0, JsValue.buffer [1, 2, 3, 4]]]
        ).ws281x.dmanum = 5 :=
  ⟨(setParam_writes_one_field readyExample (-1) ⟨by decide, by decide⟩).1,
   (setParam_writes_one_field readyExample (-1) ⟨by decide, by decide⟩).2.1,
   (setParam_writes_one_field readyExample (-1) ⟨by decide, by decide⟩).2.2.2.2.1
      32 (fun _ => []) _ (by decide),
   (setParam_writes_one_field readyExample (-1) ⟨by decide, by decide⟩).2.2.2.2.2
      32 (fun _ => []) _ (by decide)⟩

/-- C10: for every state and every argument list, the state after
`setChannelParam` is the state before it (`freq`, `dmanum`, every field of both
channels, the pixel buffers), whether the call completes normally or throws; so
an `init()` that follows hands the driver the same structure, with the same
outcome, as an `init()` made instead of the call. -/
theorem setChannelParam_leaves_configuration (st : Module) (info : List JsValue) :
    (setChannelParam st info).2 = st
      ∧ ∀ (drv : Driver) (info2 : List JsValue),
          init drv (setChannelParam st info).2 info2 = init drv st info2 := by
  refine ⟨setChannelParam_snd st info, ?_⟩
  intro drv info2
  rw [setChannelParam_snd]

/-! ## Lifecycle controller: claims -/

/-- C7: for every driver, state and argument list, `render()` calls the
driver's wait first.  When the wait status is not success, `render()` throws the
driver's text for that status and the wait is the only call added to the log.
When it is success, the log gains exactly the wait followed by one render call on
the structure the wait left, and `render()` throws the driver's text for the
render status when that status is not success and completes normally when it
is. -/
theorem render_waits_then_renders (drv : Driver) (st : Module) (info : List JsValue) :
    ((drv.ws2811_wait st.ws281x).1 ≠ drv.WS2811_SUCCESS →
      render drv st info
        = (Completion.error (drv.ws2811_get_return_t_str (drv.ws2811_wait st.ws281x).1),
            { ws281x := (drv.ws2811_wait st.ws281x).2,
              calls := st.calls ++ [DriverCall.wait st.ws281x] }))
    ∧ ((drv.ws2811_wait st.ws281x).1 = drv.WS2811_SUCCESS →
        (render drv st info).2
          = { ws281x := (drv.ws2811_render (drv.ws2811_wait st.ws281x).2).2,
              calls := st.calls ++ [DriverCall.wait st.ws281x,
                DriverCall.render (drv.ws2811_wait st.ws281x).2] }
        ∧ ((drv.ws2811_render (drv.ws2811_wait st.ws281x).2).1 ≠ drv.WS2811_SUCCESS →
            (render drv st info).1
              = Completion.error (drv.ws2811_get_return_t_str
                  (drv.ws2811_render (drv.ws2811_wait st.ws281x).2).1))
        ∧ ((drv.ws2811_render (drv.ws2811_wait st.ws281x).2).1 = drv.WS2811_SUCCESS →
            (render drv st info).1 = Completion.undefined)) := by
  refine ⟨fun hw => ?_, fun hw => ⟨?_, fun hr => ?_, fun hr => ?_⟩⟩
  · simp only [render, hw, ne_eq, not_false_eq_true, if_true]
  · by_cases hr : (drv.ws2811_render (drv.ws2811_wait st.ws281x).2).1 = drv.WS2811_SUCCESS
    · simp [render, hw, hr]
    · simp [render, hw, hr]
  · simp [render, hw, hr]
  · simp [render, hw, hr]

/-- Instances of `render_waits_then_renders`: a failing wait, a failing render,
and a render that succeeds. -/
theorem render_waits_then_renders_witness :
    render (constDriver 0 (-1) 0) readyExample []
        = (Completion.error "Generic failure",
            { ws281x := readyExample.ws281x,
              calls := [] ++ [DriverCall.wait readyExample.ws281x] })
    ∧ (render (constDriver 0 0 (-3)) readyExample []).1 = Completion.error "Generic failure"
    ∧ (render (constDriver 0 0 0) readyExample []).1 = Completion.undefined
    ∧ (render (constDriver 0 0 0) readyExample []).2
        = { ws281x := readyExample.ws281x,
            calls := [] ++ [DriverCall.wait readyExample.ws281x,
              DriverCall.render readyExample.ws281x] } :=
  ⟨(render_waits_then_renders (constDriver 0 (-1) 0) readyExample []).1 (by decide),
   ((render_waits_then_renders (constDriver 0 0 (-3)) readyExample []).2 (by decide)).2.1
      (by decide),
   ((render_waits_then_renders (constDriver 0 0 0) readyExample []).2 (by decide)).2.2
      (by decide),
   ((render_waits_then_renders (constDriver 0 0 0) readyExample []).2 (by decide)).1⟩

/-- C8: for every driver, state and argument list, `init()` adds exactly one
call to the log, the driver's initialize on the current structure, and leaves
the structure as the driver left it; it completes normally exactly when the
status is success, and for every other status it throws the `Error` whose
message is the driver's text for that status.  The same holds of an `init()`
made right after an `init()`: the log then holds the two initialize calls, and
the second call's status is surfaced in the same way. -/
theorem init_surfaces_status (drv : Driver) (st : Module) (info info2 : List JsValue) :
    (init drv st info).2
        = { ws281x := (drv.ws2811_init st.ws281x).2,
            calls := st.calls ++ [DriverCall.init st.ws281x] }
    ∧ ((init drv st info).1 = Completion.undefined
        ↔ (drv.ws2811_init st.ws281x).1 = drv.WS2811_SUCCESS)
    ∧ ((drv.ws2811_init st.ws281x).1 ≠ drv.WS2811_SUCCESS →
        (init drv st info).1
          = Completion.error (drv.ws2811_get_return_t_str (drv.ws2811_init st.ws281x).1))
    ∧ (init drv (init drv st info).2 info2).2.calls
        = st.calls ++ [DriverCall.init st.ws281x,
            DriverCall.init (drv.ws2811_init st.ws281x).2]
    ∧ ((init drv (init drv st info).2 info2).1 = Completion.undefined
        ↔ (drv.ws2811_init (drv.ws2811_init st.ws281x).2).1 = drv.WS2811_SUCCESS)
    ∧ ((drv.ws2811_init (drv.ws2811_init st.ws281x).2).1 ≠ drv.WS2811_SUCCESS →
        (init drv (init drv st info).2 info2).1
          = Completion.error (drv.ws2811_get_return_t_str
              (drv.ws2811_init (drv.ws2811_init st.ws281x).2).1)) := by
  have key : ∀ (s : Module) (i : List JsValue),
      (init drv s i).2
          = { ws281x := (drv.ws2811_init s.ws281x).2,
              calls := s.calls ++ [DriverCall.init s.ws281x] }
      ∧ ((init drv s i).1 = Completion.undefined
          ↔ (drv.ws2811_init s.ws281x).1 = drv.WS2811_SUCCESS)
      ∧ ((drv.ws2811_init s.ws281x).1 ≠ drv.WS2811_SUCCESS →
          (init drv s i).1
            = Completion.error (drv.ws2811_get_return_t_str (drv.ws2811_init s.ws281x).1)) := by
    intro s i
    by_cases h : (drv.ws2811_init s.ws281x).1 = drv.WS2811_SUCCESS
    · simp [init, h]
    · simp [init, h]
  obtain ⟨a1, a2, a3⟩ := key st info
  obtain ⟨b1, b2, b3⟩ := key (init drv st info).2 info2
  have e : (init drv st info).2.ws281x = (drv.ws2811_init st.ws281x).2 := by rw [a1]
  have c : (init drv st info).2.calls = st.calls ++ [DriverCall.init st.ws281x] := by rw [a1]
  rw [e] at b1 b2 b3
  refine ⟨a1, a2, a3, ?_, b2, b3⟩
  rw [b1, c]
  simp

/-- Instance of `init_surfaces_status` with a driver whose initialize answers
`-4`, for a first and for a repeated `init()`. -/
theorem init_surfaces_status_witness :
    (init (constDriver (-4) 0 0) readyExample [] ).1 = Completion.error "Generic failure"
    ∧ (init (constDriver (-4) 0 0) (init (constDriver (-4) 0 0) readyExample []).2 []).1
        = Completion.error "Generic failure" :=
  ⟨(init_surfaces_status (constDriver (-4) 0 0) readyExample [] []).2.2.1 (by decide),
   (init_surfaces_status (constDriver (-4) 0 0) readyExample [] []).2.2.2.2.2 (by decide)⟩

end RpiWs281x
